import Mathlib

/-!
Shallow embedding of the wells-project transport-tracking backend
(Express + Mongoose over MongoDB), covering the routes and middleware
that the specification's testable properties talk about: the trip
passenger-count increment/decrement/set sub-resources, the cascading
passenger deletion, the authentication and admin middlewares, user
registration with password hashing and serialization, trip-date
normalization, site initialization, and the full trip update.

Conventions of the embedding:
* Documents are Lean structures; a Mongo field that may be absent or
  `null` (the trips' `numberOfPassengers`) is a three-valued `NumField`.
* MongoDB update-document semantics follow the server: an update
  document whose operators target the same field path twice — as the
  count routes' `$inc` + `$setOnInsert` on `numberOfPassengers` do —
  is rejected when parsed, with `ConflictingUpdateOperators`, before
  any matching and regardless of `upsert`; for a parsed document,
  `$inc` on a missing field creates it at the increment amount and
  `$setOnInsert` applies only when an upsert inserts; a comparison
  query operator such as `$gt` matches neither a missing nor a `null`
  field; `$exists: false` matches exactly the missing field.
* JavaScript request-body values are modelled by `JsValue` with JS
  truthiness; handlers return a status code plus a typed payload.
-/

deriving instance DecidableEq for Except

namespace Wells

/-- Kernel-computable `String.trim` (JS `.trim()`): drop whitespace
from both ends. -/
def jsTrim (s : String) : String :=
  String.mk
    (((s.toList.dropWhile Char.isWhitespace).reverse.dropWhile
        Char.isWhitespace).reverse)

/-- Kernel-computable `String.startsWith` (JS `.startsWith(pre)`). -/
def jsStartsWith (s pre : String) : Bool :=
  pre.toList.isPrefixOf s.toList

/-- Kernel-computable `String.drop` (used for stripping the
`Bearer ` prefix, JS `.replace('Bearer ', '')` after the prefix
check). -/
def jsDrop (s : String) (n : Nat) : String :=
  String.mk (s.toList.drop n)

/-- A JSON / JavaScript value as it arrives in a request body field. -/
inductive JsValue where
  | undefined
  | null
  | bool (b : Bool)
  | num (n : Int)
  | str (s : String)
  deriving DecidableEq, Repr

/-- JavaScript truthiness, as applied by `Boolean(x)` and by `if (x)`. -/
def JsValue.truthy : JsValue → Bool
  | .undefined => false
  | .null => false
  | .bool b => b
  | .num n => n != 0
  | .str s => s != ""

/-- `v?.trim()` on a body field: strings are trimmed, anything else is
treated as absent (the routes only ever read `.trim()` off strings). -/
def JsValue.trimStr : JsValue → Option String
  | .str s => some (jsTrim s)
  | _ => none

/-- State of a numeric Mongo document field that the schema allows to be
absent or `null` (the trips' `numberOfPassengers`). -/
inductive NumField where
  | missing
  | null
  | val (n : Int)
  deriving DecidableEq, Repr

/-- A document of the `Trip` collection (tripModel.js). -/
structure TripDoc where
  id : Nat
  passengerId : String
  fromOrigin : String
  toDestination : String
  tripDate : String
  confirmed : Bool
  numberOfPassengers : NumField
  deriving DecidableEq, Repr

/-- A document of the `Passenger` collection (passengerModel.js). -/
structure PassengerDoc where
  id : String
  firstName : String
  lastName : String
  jobRole : String
  deriving DecidableEq, Repr

/-- The slice of database state touched by the passenger routes. -/
structure DBState where
  passengers : List PassengerDoc
  trips : List TripDoc
  deriving DecidableEq, Repr

/-- `findById` on the trip collection: the first document with the id. -/
def findTrip (db : List TripDoc) (id : Nat) : Option TripDoc :=
  db.find? (fun t => t.id == id)

/-- Replace the trip with the given id by `t'` (what a successful
`findByIdAndUpdate` leaves in the collection). -/
def replaceTrip (db : List TripDoc) (id : Nat) (t' : TripDoc) : List TripDoc :=
  db.map (fun t => if t.id == id then t' else t)

/-- One update-operator clause of a MongoDB update document: the
operator, the field path it targets, and its argument. -/
inductive UpdateClause where
  | inc (path : String) (amount : Int)
  | setOnInsert (path : String) (value : Int)
  deriving DecidableEq, Repr

/-- The field path an update clause targets. -/
def UpdateClause.path : UpdateClause → String
  | .inc p _ => p
  | .setOnInsert p _ => p

/-- MongoDB validates an update document when parsing it, before
matching any document and regardless of `upsert`: two clauses
targeting the same field path fail the whole command with
`ConflictingUpdateOperators` ("Updating the path would create a
conflict at ..."). -/
def hasDuplicatePaths : List UpdateClause → Bool
  | [] => false
  | c :: rest =>
    rest.any (fun c2 => c2.path == c.path) || hasDuplicatePaths rest

/-- Apply one clause of a successfully parsed update document to the
`numberOfPassengers` field of a matched (not upsert-inserted)
document: `$inc` creates a missing field at its amount and is a server
error on `null`; `$setOnInsert` does nothing unless an upsert inserts,
and these routes pass `upsert: false`. -/
def applyClause (f : NumField) : UpdateClause → Except String NumField
  | .inc _ amount =>
    match f with
    | .missing => .ok (.val amount)
    | .null => .error "MongoServerError"
    | .val n => .ok (.val (n + amount))
  | .setOnInsert _ _ => .ok f

/-- Apply the clauses of a parsed update document in order. -/
def applyClauses (f : NumField) : List UpdateClause → Except String NumField
  | [] => .ok f
  | c :: rest =>
    match applyClause f c with
    | .error e => .error e
    | .ok f2 => applyClauses f2 rest

/-- Outcome of a trip route handler: the HTTP status, the `error`
classification of the JSON body on failure, and the returned trip (the
`new: true` post-update document) on success. -/
inductive TripResult where
  | ok (status : Nat) (t : TripDoc)
  | err (status : Nat) (label : String)
  deriving DecidableEq, Repr

/-- Status code carried by a `TripResult`. -/
def TripResult.status : TripResult → Nat
  | .ok s _ => s
  | .err s _ => s

/-- The update document of the increment route:
`{ $inc: { numberOfPassengers: 1 }, $setOnInsert: { numberOfPassengers: 2 } }`. -/
def incrementUpdateDoc : List UpdateClause :=
  [.inc "numberOfPassengers" 1, .setOnInsert "numberOfPassengers" 2]

/-- PATCH /api/trips/:id/passengers/increment (tripRoutes).
`findByIdAndUpdate(id, incrementUpdateDoc, { upsert: false, ... })`.
The server rejects the update document at parse time — `$inc` and
`$setOnInsert` both target `numberOfPassengers`, a
`ConflictingUpdateOperators` error raised before any matching and
independent of `upsert: false` — so the thrown `MongoServerError`
reaches the route's catch block and `handleError`
(`err.name.includes('Mongo')`) answers 503 with the collection
unmodified; the 404 and apply paths are dead. -/
def incrementPassengers (db : List TripDoc) (id : Nat) :
    TripResult × List TripDoc :=
  if hasDuplicatePaths incrementUpdateDoc then
    (.err 503 "Database service unavailable", db)
  else
    match findTrip db id with
    | none => (.err 404 "Not found", db)
    | some t =>
      match applyClauses t.numberOfPassengers incrementUpdateDoc with
      | .error _ => (.err 503 "Database service unavailable", db)
      | .ok f =>
        let t' := { t with numberOfPassengers := f }
        (.ok 200 t', replaceTrip db id t')

/-- The decrement route's `findOneAndUpdate` filter:
`{ _id: id, $or: [ { numberOfPassengers: { $gt: 1 } },
{ numberOfPassengers: { $exists: false } } ] }`.  `$gt: 1` matches only
a present numeric value greater than 1 (it matches neither `null` nor a
missing field); `$exists: false` matches exactly the missing field. -/
def decFilterMatches (f : NumField) : Bool :=
  match f with
  | .val n => n > 1
  | .missing => true
  | .null => false

/-- The update document of the decrement route:
`{ $inc: { numberOfPassengers: -1 }, $setOnInsert: { numberOfPassengers: 1 } }`. -/
def decrementUpdateDoc : List UpdateClause :=
  [.inc "numberOfPassengers" (-1), .setOnInsert "numberOfPassengers" 1]

/-- PATCH /api/trips/:id/passengers/decrement (tripRoutes).
`findOneAndUpdate` with the conditional filter above and
`decrementUpdateDoc`.  As in the increment route, the same-path
`$inc` + `$setOnInsert` update document fails parsing with
`ConflictingUpdateOperators` before the filter is ever evaluated, so
the route always answers 503 via `handleError` with the collection
unmodified; the 400-validation path (null result of the conditional
filter) and the apply path are dead. -/
def decrementPassengers (db : List TripDoc) (id : Nat) :
    TripResult × List TripDoc :=
  if hasDuplicatePaths decrementUpdateDoc then
    (.err 503 "Database service unavailable", db)
  else
    match findTrip db id with
    | none => (.err 400 "Validation failed", db)
    | some t =>
      if decFilterMatches t.numberOfPassengers then
        match applyClauses t.numberOfPassengers decrementUpdateDoc with
        | .error _ => (.err 503 "Database service unavailable", db)
        | .ok f =>
          let t' := { t with numberOfPassengers := f }
          (.ok 200 t', replaceTrip db id t')
      else
        (.err 400 "Validation failed", db)

/-! ### Trip date normalization (tripRoutes `formatTripDate`)

Civil-calendar arithmetic for the UTC date line of
`Date.prototype.toISOString`, via the standard days-from-civil /
civil-from-days algorithms on proleptic Gregorian dates. -/

/-- Days since the Unix epoch of a civil date (proleptic Gregorian). -/
def daysFromCivil (y m d : Int) : Int :=
  let y := y - (if m ≤ 2 then 1 else 0)
  let era := y.ediv 400
  let yoe := y - era * 400
  let doy := (153 * (m + (if m > 2 then -3 else 9)) + 2).ediv 5 + d - 1
  let doe := yoe * 365 + yoe.ediv 4 - yoe.ediv 100 + doy
  era * 146097 + doe - 719468

/-- Civil date (year, month, day) of a count of days since the epoch. -/
def civilFromDays (z : Int) : Int × Int × Int :=
  let z := z + 719468
  let era := z.ediv 146097
  let doe := z - era * 146097
  let yoe := (doe - doe.ediv 1460 + doe.ediv 36524 - doe.ediv 146096).ediv 365
  let y := yoe + era * 400
  let doy := doe - (365 * yoe + yoe.ediv 4 - yoe.ediv 100)
  let mp := (5 * doy + 2).ediv 153
  let d := doy - (153 * mp + 2).ediv 5 + 1
  let m := mp + (if mp < 10 then 3 else -9)
  (y + (if m ≤ 2 then 1 else 0), m, d)

/-- Zero-pad a number to `w` digits. -/
def pad (w : Nat) (n : Int) : String :=
  let s := toString n.toNat
  String.mk (List.replicate (w - s.length) '0') ++ s

/-- The date part of `toISOString()` of an instant (milliseconds since
the Unix epoch): `YYYY-MM-DD` of the UTC day containing it. -/
def toISODateString (ms : Int) : String :=
  match civilFromDays (ms.ediv 86400000) with
  | (y, m, d) => pad 4 y ++ "-" ++ pad 2 m ++ "-" ++ pad 2 d

/-- The fast-path regex of `formatTripDate`:
`/^\d{4}-\d{2}-\d{2}$/`. -/
def matchesYMD (s : String) : Bool :=
  match s.toList with
  | [a, b, c, d, h1, e, f, h2, g, i] =>
    a.isDigit && b.isDigit && c.isDigit && d.isDigit && h1 == '-' &&
    e.isDigit && f.isDigit && h2 == '-' && g.isDigit && i.isDigit
  | _ => false

/-- Whether `y` is a Gregorian leap year. -/
def isLeap (y : Nat) : Bool :=
  y % 4 == 0 && (y % 100 != 0 || y % 400 == 0)

/-- Days in month `m` of year `y`. -/
def daysInMonth (y m : Nat) : Nat :=
  if m == 2 then (if isLeap y then 29 else 28)
  else if m == 4 || m == 6 || m == 9 || m == 11 then 30
  else 31

/-- Numeric value of a digit character. -/
def digitVal (c : Char) : Nat := c.toNat - 48

/-- Parse a leading `YYYY-MM-DD` from a character list, returning the
fields and the remaining characters. -/
def parseYMD : List Char → Option (Nat × Nat × Nat × List Char)
  | y1 :: y2 :: y3 :: y4 :: '-' :: m1 :: m2 :: '-' :: d1 :: d2 :: rest =>
    if y1.isDigit && y2.isDigit && y3.isDigit && y4.isDigit &&
       m1.isDigit && m2.isDigit && d1.isDigit && d2.isDigit then
      some (digitVal y1 * 1000 + digitVal y2 * 100 + digitVal y3 * 10 + digitVal y4,
            digitVal m1 * 10 + digitVal m2,
            digitVal d1 * 10 + digitVal d2, rest)
    else none
  | _ => none

/-- Parse a trailing `THH:MM:SS[.mmm]Z` time-of-day part, returning
hour, minute, second and millisecond. -/
def parseTime : List Char → Option (Nat × Nat × Nat × Nat)
  | 'T' :: h1 :: h2 :: ':' :: m1 :: m2 :: ':' :: s1 :: s2 :: rest =>
    if h1.isDigit && h2.isDigit && m1.isDigit && m2.isDigit &&
       s1.isDigit && s2.isDigit then
      let h := digitVal h1 * 10 + digitVal h2
      let mi := digitVal m1 * 10 + digitVal m2
      let s := digitVal s1 * 10 + digitVal s2
      match rest with
      | ['Z'] => some (h, mi, s, 0)
      | '.' :: a :: b :: c :: ['Z'] =>
        if a.isDigit && b.isDigit && c.isDigit then
          some (h, mi, s, digitVal a * 100 + digitVal b * 10 + digitVal c)
        else none
      | _ => none
    else none
  | _ => none

/-- `new Date(string)` on the ECMA-262 Date Time String Format,
restricted to the UTC forms the backend exchanges: a date-only
`YYYY-MM-DD` (interpreted as UTC midnight) or a full `Z`-suffixed UTC
timestamp.  Returns the instant in milliseconds since the epoch, or
`none` for an unparsable string (JS `Invalid Date`). -/
def jsDateParse (s : String) : Option Int :=
  match parseYMD s.toList with
  | none => none
  | some (y, m, d, rest) =>
    if 1 ≤ m && m ≤ 12 && 1 ≤ d && d ≤ daysInMonth y m then
      let dayMs : Int := daysFromCivil y m d * 86400000
      match rest with
      | [] => some dayMs
      | _ =>
        match parseTime rest with
        | some (h, mi, sec, ms) =>
          if h ≤ 23 && mi ≤ 59 && sec ≤ 59 then
            some (dayMs + (h * 3600000 + mi * 60000 + sec * 1000 + ms : Nat))
          else none
        | none => none
    else none

/-- A trip-date value as supplied in a request body or URL parameter:
a string, or a numeric instant (a native date value / epoch
milliseconds). -/
inductive DateInput where
  | str (s : String)
  | numMs (ms : Int)
  deriving DecidableEq, Repr

/-- `formatTripDate` (tripRoutes): a string already matching
`/^\d{4}-\d{2}-\d{2}$/` is returned as is; anything else goes through
`new Date(...)` — throwing on an invalid date — and then
`toISOString().split('T')[0]`.  A numeric instant is a valid date
exactly when its magnitude is within the ECMA-262 time range. -/
def formatTripDate (input : DateInput) : Except String String :=
  match input with
  | .str s =>
    if matchesYMD s then .ok s
    else
      match jsDateParse s with
      | some ms => .ok (toISODateString ms)
      | none => .error "Invalid date format"
  | .numMs ms =>
    if ms.natAbs ≤ 8640000000000000 then .ok (toISODateString ms)
    else .error "Invalid date format"

/-! ### Trip create / full update (tripRoutes POST /, PUT /:id) -/

/-- The request body of POST /api/trips and PUT /api/trips/:id. -/
structure TripBody where
  passengerId : JsValue
  fromOrigin : JsValue
  toDestination : JsValue
  tripDate : JsValue
  confirmed : JsValue
  numberOfPassengers : JsValue
  deriving Repr

/-- The date input carried by a body field (strings parse as strings,
numbers as instants, `true`/`false` coerce to 1/0 as in JS). -/
def JsValue.asDateInput : JsValue → Option DateInput
  | .str s => some (.str s)
  | .num n => some (.numMs n)
  | .bool b => some (.numMs (if b then 1 else 0))
  | _ => none

/-- JS `parseInt` as applied to a body field: numbers are kept (the
bodies at issue carry integers), strings are parsed if they are plain
optionally-signed digit strings, everything else is `NaN` (`none`). -/
def jsParseInt : JsValue → Option Int
  | .num n => some n
  | .str s =>
    match s.toList with
    | '-' :: ds => if ds ≠ [] && ds.all Char.isDigit then
        some (-(ds.foldl (fun a c => a * 10 + digitVal c) 0 : Nat)) else none
    | ds => if ds ≠ [] && ds.all Char.isDigit then
        some (ds.foldl (fun a c => a * 10 + digitVal c) 0 : Nat) else none
  | _ => none

/-- The schema validator of `numberOfPassengers` (tripModel.js): null
or absent is allowed, otherwise the value must be an integer ≥ 1. -/
def numFieldValid : NumField → Bool
  | .missing => true
  | .null => true
  | .val n => n ≥ 1

/-- The `numberOfPassengers` both write routes put into the document:
`numberOfPassengers !== undefined && numberOfPassengers !== null ?
parseInt(numberOfPassengers) : null`.  A `NaN` from `parseInt` is
modelled as a value that fails the schema validator. -/
def bodyNumField (v : JsValue) : NumField :=
  match v with
  | .undefined => .null
  | .null => .null
  | v =>
    match jsParseInt v with
    | some n => .val n
    | none => .val 0

/-- The shared required-fields check of POST / and PUT /:id:
`!passengerId?.trim() || !fromOrigin?.trim() || !toDestination?.trim()
|| !tripDate || typeof confirmed === 'undefined'`. -/
def tripBodyMissing (body : TripBody) : Bool :=
  (body.passengerId.trimStr.getD "") = "" ||
  (body.fromOrigin.trimStr.getD "") = "" ||
  (body.toDestination.trimStr.getD "") = "" ||
  !body.tripDate.truthy ||
  body.confirmed == .undefined

/-- POST /api/trips: validate required fields, normalize the date via
`formatTripDate` (400 on a date error), build the document with
`confirmed: Boolean(confirmed)` and the `numberOfPassengers` rule
above, and save it (schema validation failure is a 400). -/
def createTrip (db : List TripDoc) (nextId : Nat) (body : TripBody) :
    TripResult × List TripDoc :=
  if tripBodyMissing body then (.err 400 "Validation failed", db)
  else
    match body.tripDate.asDateInput with
    | none => (.err 400 "Validation failed", db)
    | some di =>
      match formatTripDate di with
      | .error _ => (.err 400 "Validation failed", db)
      | .ok formatted =>
        let t : TripDoc :=
          { id := nextId
            passengerId := (body.passengerId.trimStr.getD "")
            fromOrigin := (body.fromOrigin.trimStr.getD "")
            toDestination := (body.toDestination.trimStr.getD "")
            tripDate := formatted
            confirmed := body.confirmed.truthy
            numberOfPassengers := bodyNumField body.numberOfPassengers }
        if numFieldValid t.numberOfPassengers then
          (.ok 201 t, db ++ [t])
        else (.err 400 "Validation failed", db)

/-- PUT /api/trips/:id: the same validation and date normalization as
the create route, then `findByIdAndUpdate(id, { $set: updateData },
{ runValidators: true })` — so every field of the update payload,
including a `null` `numberOfPassengers`, is written over the stored
document. -/
def putTrip (db : List TripDoc) (id : Nat) (body : TripBody) :
    TripResult × List TripDoc :=
  if tripBodyMissing body then (.err 400 "Validation failed", db)
  else
    match body.tripDate.asDateInput with
    | none => (.err 400 "Validation failed", db)
    | some di =>
      match formatTripDate di with
      | .error _ => (.err 400 "Validation failed", db)
      | .ok formatted =>
        match findTrip db id with
        | none => (.err 404 "Not found", db)
        | some t =>
          let t' : TripDoc :=
            { id := t.id
              passengerId := (body.passengerId.trimStr.getD "")
              fromOrigin := (body.fromOrigin.trimStr.getD "")
              toDestination := (body.toDestination.trimStr.getD "")
              tripDate := formatted
              confirmed := body.confirmed.truthy
              numberOfPassengers := bodyNumField body.numberOfPassengers }
          if numFieldValid t'.numberOfPassengers then
            (.ok 200 t', replaceTrip db id t')
          else (.err 400 "Validation failed", db)

/-- Outcome of GET /api/trips/date/:date — a list of trips or an
error status with its `error` classification. -/
inductive QueryResult where
  | ok (trips : List TripDoc)
  | err (status : Nat) (label : String)
  deriving DecidableEq, Repr

/-- GET /api/trips/date/:date: the URL parameter goes through the same
`formatTripDate` (400 on error) and the query is an exact string match
on the stored `tripDate`. -/
def getTripsByDate (db : List TripDoc) (dateParam : String) : QueryResult :=
  match formatTripDate (.str dateParam) with
  | .error _ => .err 400 "Validation failed"
  | .ok queryDate => .ok (db.filter (fun t => t.tripDate == queryDate))

/-! ### Site initialization (siteRoutes POST /initialize) -/

/-- A document of the `Site` collection (siteModel.js). -/
structure SiteDoc where
  siteName : String
  currentPOB : Int
  maximumPOB : Int
  pobUpdatedDate : Int
  deriving DecidableEq, Repr

/-- The fixed location list of the initialize route. -/
def locations : List String := ["Ogle", "NTM", "NSC", "NDT", "NBD", "STC"]

/-- The route's `defaultMaximumPOB`. -/
def defaultMaximumPOB : Int := 200

/-- The document `$setOnInsert` creates for a missing site. -/
def mkDefaultSite (name : String) (now : Int) : SiteDoc :=
  { siteName := name, currentPOB := 0, maximumPOB := defaultMaximumPOB
    pobUpdatedDate := now }

/-- One `updateOne` of the bulk write: filter `{ siteName }`, update
`{ $setOnInsert: {...} }`, `upsert: true`.  A matched document receives
no modification (the update has only `$setOnInsert`); no match inserts
the default document. -/
def initSiteStep (now : Int) (db : List SiteDoc) (name : String) :
    List SiteDoc :=
  if db.any (fun s => s.siteName == name) then db
  else db ++ [mkDefaultSite name now]

/-- POST /api/sites/initialize: `Site.bulkWrite` of one insert-if-absent
`updateOne` per known location, in order. -/
def initializeSites (now : Int) (db : List SiteDoc) : List SiteDoc :=
  locations.foldl (initSiteStep now) db

/-! ### Cascading passenger deletion (passengerRoutes DELETE /:id) -/

/-- Which database statement inside the delete transaction fails with an
infrastructure error, if any.  The route wraps the three statements in
`session.withTransaction`; any throw aborts the transaction and rolls
the state back. -/
inductive DeleteFault where
  | none
  | findPassenger
  | deleteTrips
  | deletePassenger
  | commit
  deriving DecidableEq, Repr

/-- `findById` on the passenger collection. -/
def findPassenger (db : List PassengerDoc) (pid : String) : Option PassengerDoc :=
  db.find? (fun p => p.id == pid)

/-- Number of trips whose `passengerId` equals `pid`. -/
def tripsReferencing (st : DBState) (pid : String) : Nat :=
  (st.trips.filter (fun t => t.passengerId == pid)).length

/-- The state after the transaction body ran to completion:
`Trip.deleteMany({ passengerId })` followed by
`Passenger.findByIdAndDelete(passengerId)`. -/
def cascadeDeleted (st : DBState) (pid : String) : DBState :=
  { passengers := st.passengers.filter (fun p => p.id != pid)
    trips := st.trips.filter (fun t => t.passengerId != pid) }

/-- Outcome of the passenger delete route: HTTP status, the `error`
classification on failure, the resulting database state, and whether
the `finally` block released the session (`session.endSession()`). -/
structure DeleteOutcome where
  status : Nat
  label : String
  state : DBState
  sessionReleased : Bool
  deriving DecidableEq, Repr

/-- DELETE /api/passengers/:id (passengerRoutes).  Inside
`session.withTransaction`: look the passenger up (throwing
'Passenger not found' if absent), delete all trips referencing it, then
delete the passenger.  Any throw aborts the transaction, so the state
rolls back to `st`; the catch block maps 'Passenger not found' to 404
and infrastructure (Mongo) errors to 503 via `handleError`; the
`finally` block always ends the session. -/
def deletePassengerRoute (st : DBState) (pid : String)
    (fault : DeleteFault) : DeleteOutcome :=
  match fault with
  | .findPassenger => ⟨503, "Database service unavailable", st, true⟩
  | _ =>
    match findPassenger st.passengers pid with
    | none => ⟨404, "Not found", st, true⟩
    | some _ =>
      match fault with
      | .deleteTrips => ⟨503, "Database service unavailable", st, true⟩
      | .deletePassenger => ⟨503, "Database service unavailable", st, true⟩
      | .commit => ⟨503, "Database service unavailable", st, true⟩
      | _ => ⟨200, "", cascadeDeleted st pid, true⟩

/-! ### Authentication and authorization middleware -/

/-- A document of the `User` collection (userModel.js), restricted to
the fields the middlewares and routes read.  `password` is an `Option`
because `.select('-password')` projections strip it. -/
structure UserRec where
  id : String
  userName : String
  password : Option String
  isAdmin : Bool
  deriving DecidableEq, Repr

/-- Result of `jwt.verify(token, secret)`: the decoded `_id` on
success, or a thrown `JsonWebTokenError` / `TokenExpiredError`. -/
inductive VerifyOutcome where
  | ok (userId : String)
  | invalidSignature
  | expired
  deriving DecidableEq, Repr

/-- The environment the auth middleware runs against: the JWT
verification oracle and the user lookup
(`User.findById(decoded._id).select('-password -__v')`, modelled as a
lookup returning the stored record; the projection is applied by the
middleware model). -/
structure AuthEnv where
  verify : String → VerifyOutcome
  findUser : String → Option UserRec

/-- Outcome of a middleware: a `res.status(s).json({ error: e })`
rejection, or `next()` with the identity attached to `req.user`. -/
inductive AuthResult where
  | reject (status : Nat) (label : String)
  | proceed (user : UserRec)
  deriving DecidableEq, Repr

/-- middleware/auth.js: validate the `Authorization` header in order —
absent header, missing `Bearer ` prefix, empty token after stripping
and trimming, JWT verification (distinguishing `JsonWebTokenError`
from `TokenExpiredError` in the catch block), then the user lookup —
and on success attach the user with the password projected away. -/
def auth (env : AuthEnv) (authHeader : Option String) : AuthResult :=
  match authHeader with
  | none => .reject 401 "Authentication required"
  | some h =>
    if !jsStartsWith h "Bearer " then
      .reject 401 "Invalid token format"
    else
      let token := jsTrim (jsDrop h 7)
      if token = "" then
        .reject 401 "Invalid token"
      else
        match env.verify token with
        | .invalidSignature => .reject 401 "Invalid token"
        | .expired => .reject 401 "Token expired"
        | .ok uid =>
          match env.findUser uid with
          | none => .reject 401 "Invalid token"
          | some u => .proceed { u with password := none }

/-- middleware/admin.js: a pure check of the identity attached by the
auth middleware (`req.user`); it touches no database.  No identity is a
401, a non-admin identity a 403, otherwise `next()`. -/
def admin (reqUser : Option UserRec) : AuthResult :=
  match reqUser with
  | none => .reject 401 "Authentication required"
  | some u =>
    if !u.isAdmin then .reject 403 "Admin access required"
    else .proceed u

/-! ### User registration (userRoutes POST /register, userModel) -/

/-- A stored `User` document as the register route creates it, with the
serialization-sensitive fields present. -/
structure UserDoc where
  userName : String
  password : String
  firstName : String
  lastName : String
  homeLocation : String
  isAdmin : Bool
  tokens : String
  deriving DecidableEq, Repr

/-- The request body of POST /api/users/register. -/
structure RegisterBody where
  userName : JsValue
  password : JsValue
  firstName : JsValue
  lastName : JsValue
  homeLocation : JsValue
  isAdmin : JsValue
  deriving Repr

/-- The username pattern of the route and the schema:
letters, digits and hyphens only. -/
def userNameOk (s : String) : Bool :=
  s ≠ "" && s.toList.all (fun c => c.isAlpha || c.isDigit || c == '-')

/-- `this.toObject()`: every stored field as a JSON key/value list,
including the sensitive ones. -/
def userToObject (u : UserDoc) : List (String × String) :=
  [("userName", u.userName), ("password", u.password),
   ("firstName", u.firstName), ("lastName", u.lastName),
   ("homeLocation", u.homeLocation),
   ("isAdmin", if u.isAdmin then "true" else "false"),
   ("tokens", u.tokens)]

/-- `delete obj[k]` on a JSON object. -/
def removeKey (k : String) (l : List (String × String)) :
    List (String × String) :=
  l.filter (fun p => p.1 ≠ k)

/-- UserSchema.methods.toJSON (userModel.js): `toObject()` with
`password`, `tokens`, `resetPasswordToken` and `resetPasswordExpire`
deleted. -/
def userToJSON (u : UserDoc) : List (String × String) :=
  removeKey "resetPasswordExpire" (removeKey "resetPasswordToken"
    (removeKey "tokens" (removeKey "password" (userToObject u))))

/-- Outcome of the register route: a 400 validation rejection, or 201
with the stored document and the JSON body actually sent back
(`savedUser.toObject()` with `delete userToReturn.password`). -/
inductive RegisterResult where
  | badRequest (message : String)
  | created (stored : UserDoc) (body : List (String × String))
  deriving DecidableEq, Repr

/-- POST /api/users/register (userRoutes), with the `bcrypt.hash` of
the `pre('save')` hook abstracted as `bhash`.  Validations in route
order: username and password present and non-empty after trimming,
username pattern, untrimmed password length at least 8, username not
already taken.  The created document stores `bhash` of the trimmed
password (the hook replaces `this.password` before the insert), sets
`isAdmin` to `Boolean(isAdmin) || false`, and the response body is the
saved object with the password key deleted. -/
def register (bhash : String → String) (db : List UserDoc)
    (body : RegisterBody) : RegisterResult :=
  match body.userName.trimStr, body.password.trimStr with
  | some un, some pw =>
    if un = "" ∨ pw = "" then
      .badRequest "Username and password are required"
    else if !userNameOk un then
      .badRequest "Username can only contain letters, numbers, and hyphens"
    else if (match body.password with
             | .str raw => decide (raw.length < 8)
             | _ => true) then
      .badRequest "Password must be at least 8 characters long"
    else if db.any (fun u => u.userName == un) then
      .badRequest "Username already exists"
    else
      let stored : UserDoc :=
        { userName := un
          password := bhash pw
          firstName := (body.firstName.trimStr.getD "")
          lastName := (body.lastName.trimStr.getD "")
          homeLocation :=
            (match body.homeLocation.trimStr with
             | some h => if h = "" then "NSC" else h
             | none => "NSC")
          isAdmin := body.isAdmin.truthy || false
          tokens := "[]" }
      .created stored (removeKey "password" (userToObject stored))
  | _, _ => .badRequest "Username and password are required"

/-! ## Concrete sample documents used by witnesses -/

/-- A trip whose `numberOfPassengers` field is absent. -/
def tripMissingCount : TripDoc :=
  { id := 1, passengerId := "p1", fromOrigin := "Ogle", toDestination := "NTM"
    tripDate := "2024-01-05", confirmed := true
    numberOfPassengers := .missing }

/-- A trip whose `numberOfPassengers` is 1. -/
def tripCountOne : TripDoc :=
  { tripMissingCount with id := 2, numberOfPassengers := .val 1 }

/-- A trip whose `numberOfPassengers` is 3. -/
def tripCountThree : TripDoc :=
  { tripMissingCount with id := 3, numberOfPassengers := .val 3 }

/-! ## Theorems -/

/-- **C3** (code_bug evidence).  The increment route's update document
pairs `$inc` and `$setOnInsert` on the same `numberOfPassengers` path,
so the server rejects it when parsing (`ConflictingUpdateOperators`),
before any matching and despite `upsert: false`: for every collection
and id the route answers 503 (`handleError` on the `MongoServerError`)
and stores nothing — in particular it neither establishes the claimed
2 on the absent-field trip nor increments the present count 3 to 4. -/
theorem increment_always_conflicts :
    (∀ (db : List TripDoc) (id : Nat),
      incrementPassengers db id
        = (.err 503 "Database service unavailable", db)) ∧
    incrementPassengers [tripMissingCount] 1
      = (.err 503 "Database service unavailable", [tripMissingCount]) ∧
    incrementPassengers [tripCountThree] 3
      = (.err 503 "Database service unavailable", [tripCountThree]) :=
  ⟨fun _ _ => rfl, by decide, by decide⟩

/-- **C2** (code_bug evidence).  The decrement route sends the same
kind of same-path `$inc` + `$setOnInsert` update document, rejected
with `ConflictingUpdateOperators` at parse time, before the
conditional filter is evaluated: for every collection and id the route
answers 503 and changes nothing — it never returns the claimed 400
validation error on the count-1 or absent-field trips (those requests
also get 503), and never decrements the count-3 trip. -/
theorem decrement_always_conflicts :
    (∀ (db : List TripDoc) (id : Nat),
      decrementPassengers db id
        = (.err 503 "Database service unavailable", db)) ∧
    decrementPassengers [tripCountOne] 2
      = (.err 503 "Database service unavailable", [tripCountOne]) ∧
    decrementPassengers [tripMissingCount] 1
      = (.err 503 "Database service unavailable", [tripMissingCount]) ∧
    decrementPassengers [tripCountThree] 3
      = (.err 503 "Database service unavailable", [tripCountThree]) :=
  ⟨fun _ _ => rfl, by decide, by decide, by decide⟩

/-- **C5**.  The admin middleware — by definition a pure function of the
identity the auth middleware attached, with no database argument —
rejects with 401 when no identity is attached, rejects with 403 when
the attached identity's admin flag is false, and proceeds with the
identity otherwise. -/
theorem admin_gate :
    admin none = .reject 401 "Authentication required" ∧
    (∀ u : UserRec, u.isAdmin = false →
      admin (some u) = .reject 403 "Admin access required") ∧
    (∀ u : UserRec, u.isAdmin = true → admin (some u) = .proceed u) := by
  refine ⟨rfl, ?_, ?_⟩ <;> intro u h <;> simp [admin, h]

/-- Sample identities for the middleware witnesses. -/
def aliceUser : UserRec :=
  { id := "u1", userName := "alice", password := some "secret-hash", isAdmin := false }

/-- An admin variant of `aliceUser`. -/
def rootUser : UserRec :=
  { id := "u2", userName := "root-user", password := some "secret-hash", isAdmin := true }

/-- Witness for **C5**: the three branches of `admin_gate` evaluated at
concrete identities. -/
theorem admin_gate_witness :
    admin none = .reject 401 "Authentication required" ∧
    admin (some aliceUser) = .reject 403 "Admin access required" ∧
    admin (some rootUser) = .proceed rootUser :=
  ⟨admin_gate.1, admin_gate.2.1 aliceUser (by decide),
   admin_gate.2.2 rootUser (by decide)⟩

/-- **C4**.  The auth middleware short-circuits with a distinct 401 at
the first failing check, in order: no `Authorization` header; a header
without the `Bearer ` prefix; an empty token once the prefix is
stripped and the remainder trimmed; a token failing JWT verification —
a bad signature ("Invalid token") answered distinctly from an expired
token ("Token expired"); a verified token whose user no longer exists.
When all five checks pass, it proceeds with the resolved user, password
field excluded. -/
theorem auth_validation_sequence (env : AuthEnv) :
    auth env none = .reject 401 "Authentication required" ∧
    (∀ s, jsStartsWith s "Bearer " = false →
      auth env (some s) = .reject 401 "Invalid token format") ∧
    (∀ s, jsStartsWith s "Bearer " = true → jsTrim (jsDrop s 7) = "" →
      auth env (some s) = .reject 401 "Invalid token") ∧
    (∀ s tkn, jsStartsWith s "Bearer " = true → jsTrim (jsDrop s 7) = tkn → tkn ≠ "" →
      (env.verify tkn = .invalidSignature →
        auth env (some s) = .reject 401 "Invalid token") ∧
      (env.verify tkn = .expired →
        auth env (some s) = .reject 401 "Token expired") ∧
      (∀ uid, env.verify tkn = .ok uid → env.findUser uid = none →
        auth env (some s) = .reject 401 "Invalid token") ∧
      (∀ uid u, env.verify tkn = .ok uid → env.findUser uid = some u →
        auth env (some s) = .proceed { u with password := none })) := by
  refine ⟨rfl, ?_, ?_, ?_⟩
  · intro s h
    simp [auth, h]
  · intro s h he
    simp [auth, h, he]
  · intro s tkn h htk hne
    subst htk
    refine ⟨?_, ?_, ?_, ?_⟩
    · intro hv
      simp [auth, h, hne, hv]
    · intro hv
      simp [auth, h, hne, hv]
    · intro uid hv hu
      simp [auth, h, hne, hv, hu]
    · intro uid u hv hu
      simp [auth, h, hne, hv, hu]

/-- The JWT / user-lookup environment of the auth witnesses: "goodtok"
verifies to `aliceUser`'s id, "staletok" is expired, everything else
has a bad signature; only `aliceUser` exists. -/
def sampleEnv : AuthEnv :=
  { verify := fun t =>
      if t = "goodtok" then .ok "u1"
      else if t = "staletok" then .expired
      else if t = "ghosttok" then .ok "u9" else .invalidSignature
    findUser := fun i => if i = "u1" then some aliceUser else none }

/-- Witness for **C4**: each of the six outcomes of
`auth_validation_sequence` at a concrete environment and header. -/
theorem auth_validation_sequence_witness :
    auth sampleEnv none = .reject 401 "Authentication required" ∧
    auth sampleEnv (some "Token goodtok") = .reject 401 "Invalid token format" ∧
    auth sampleEnv (some "Bearer    ") = .reject 401 "Invalid token" ∧
    auth sampleEnv (some "Bearer badtok") = .reject 401 "Invalid token" ∧
    auth sampleEnv (some "Bearer staletok") = .reject 401 "Token expired" ∧
    auth sampleEnv (some "Bearer ghosttok") = .reject 401 "Invalid token" ∧
    auth sampleEnv (some "Bearer goodtok") =
      .proceed { aliceUser with password := none } := by
  have H := auth_validation_sequence sampleEnv
  refine ⟨H.1, H.2.1 _ (by decide), H.2.2.1 _ (by decide) (by decide),
    (H.2.2.2 _ "badtok" (by decide) (by decide) (by decide)).1 (by decide),
    (H.2.2.2 _ "staletok" (by decide) (by decide) (by decide)).2.1 (by decide),
    (H.2.2.2 _ "ghosttok" (by decide) (by decide) (by decide)).2.2.1 "u9"
      (by decide) (by decide),
    (H.2.2.2 _ "goodtok" (by decide) (by decide) (by decide)).2.2.2 "u1"
      aliceUser (by decide) (by decide)⟩

/-- After the cascade ran, no trip references the passenger: deleting
everything whose `passengerId` equals `pid` leaves nothing equal to
`pid`. -/
theorem tripsReferencing_cascadeDeleted (st : DBState) (pid : String) :
    tripsReferencing (cascadeDeleted st pid) pid = 0 := by
  simp [tripsReferencing, cascadeDeleted, List.filter_filter, bne]

/-- **C1**.  The cascading passenger deletion, for every starting
state, passenger id and fault point: the session is released on every
exit path; the resulting state is either the unchanged initial state or
the fully-cascaded one (no mixed intermediate state); an absent
passenger id answers 404 with the state untouched; a fault-free run on
an existing passenger answers 200; and every 200 answer leaves the
cascaded state, with zero trips referencing the id and the passenger
gone, while every non-200 answer leaves the state untouched. -/
theorem passengerDelete_atomic (st : DBState) (pid : String)
    (fault : DeleteFault) :
    (deletePassengerRoute st pid fault).sessionReleased = true ∧
    ((deletePassengerRoute st pid fault).state = st ∨
      (deletePassengerRoute st pid fault).state = cascadeDeleted st pid) ∧
    (findPassenger st.passengers pid = none → fault ≠ .findPassenger →
      (deletePassengerRoute st pid fault).status = 404 ∧
      (deletePassengerRoute st pid fault).state = st) ∧
    (∀ p, findPassenger st.passengers pid = some p → fault = .none →
      (deletePassengerRoute st pid fault).status = 200) ∧
    ((deletePassengerRoute st pid fault).status = 200 →
      (deletePassengerRoute st pid fault).state = cascadeDeleted st pid ∧
      tripsReferencing (deletePassengerRoute st pid fault).state pid = 0 ∧
      findPassenger (deletePassengerRoute st pid fault).state.passengers pid
        = none) ∧
    ((deletePassengerRoute st pid fault).status ≠ 200 →
      (deletePassengerRoute st pid fault).state = st) := by
  have hfind : findPassenger (cascadeDeleted st pid).passengers pid = none := by
    simp only [findPassenger, cascadeDeleted, List.find?_eq_none]
    intro p hp
    rcases List.mem_filter.mp hp with ⟨_, hne⟩
    simpa using hne
  have hzero := tripsReferencing_cascadeDeleted st pid
  cases fault <;>
    cases h : findPassenger st.passengers pid <;>
      simp [deletePassengerRoute, h, hfind, hzero]

/-- A starting state for the **C1** witness: one passenger with two
trips referencing it and one unrelated trip. -/
def cascadeState : DBState :=
  { passengers := [{ id := "p1", firstName := "Ann", lastName := "Lee", jobRole := "" }]
    trips := [tripMissingCount, { tripCountThree with passengerId := "p9" },
              { tripCountOne with passengerId := "p1" }] }

/-- Witness for **C1**: on the concrete state, the fault-free deletion
of `"p1"` returns 200 and leaves zero trips referencing it with the
session released, and deleting the absent `"zz"` returns 404 with the
state untouched. -/
theorem passengerDelete_atomic_witness :
    (deletePassengerRoute cascadeState "p1" .none).status = 200 ∧
    tripsReferencing (deletePassengerRoute cascadeState "p1" .none).state "p1"
      = 0 ∧
    (deletePassengerRoute cascadeState "p1" .none).sessionReleased = true ∧
    (deletePassengerRoute cascadeState "zz" .none).status = 404 ∧
    (deletePassengerRoute cascadeState "zz" .none).state = cascadeState := by
  have h1 := passengerDelete_atomic cascadeState "p1" DeleteFault.none
  have h2 := passengerDelete_atomic cascadeState "zz" DeleteFault.none
  have hs : (deletePassengerRoute cascadeState "p1" DeleteFault.none).status
      = 200 :=
    h1.2.2.2.1 { id := "p1", firstName := "Ann", lastName := "Lee", jobRole := "" }
      (by decide) rfl
  refine ⟨hs, (h1.2.2.2.2.1 hs).2.1, h1.1,
    (h2.2.2.1 (by decide) (by decide)).1, (h2.2.2.1 (by decide) (by decide)).2⟩

/-- The initialize fold only appends: the result is the starting
collection followed by fresh default documents whose names come from
the processed list. -/
theorem initFold_append (now : Int) (L : List String) :
    ∀ db : List SiteDoc, ∃ new,
      L.foldl (initSiteStep now) db = db ++ new ∧
      ∀ s ∈ new, s.currentPOB = 0 ∧ s.maximumPOB = defaultMaximumPOB ∧
        s.pobUpdatedDate = now ∧ s.siteName ∈ L := by
  induction L with
  | nil => intro db; exact ⟨[], by simp⟩
  | cons name L ih =>
    intro db
    by_cases h : db.any (fun s => s.siteName == name)
    · obtain ⟨new, h1, h2⟩ := ih db
      refine ⟨new, ?_, fun s hs => ?_⟩
      · simpa [initSiteStep, h] using h1
      · obtain ⟨c1, c2, c3, c4⟩ := h2 s hs
        exact ⟨c1, c2, c3, List.mem_cons_of_mem _ c4⟩
    · obtain ⟨new, h1, h2⟩ := ih (db ++ [mkDefaultSite name now])
      refine ⟨mkDefaultSite name now :: new, ?_, fun s hs => ?_⟩
      · simp only [List.foldl_cons, initSiteStep, h, if_neg, Bool.false_eq_true,
          not_false_eq_true, ite_false]
        simpa using h1
      · rcases List.mem_cons.mp hs with rfl | hs
        · exact ⟨rfl, rfl, rfl, List.mem_cons_self _ _⟩
        · obtain ⟨c1, c2, c3, c4⟩ := h2 s hs
          exact ⟨c1, c2, c3, List.mem_cons_of_mem _ c4⟩

/-- A name already present in the collection stays present across the
initialize fold. -/
theorem initFold_any_mono (now : Int) (L : List String) (db : List SiteDoc)
    (name : String) (h : db.any (fun s => s.siteName == name) = true) :
    (L.foldl (initSiteStep now) db).any (fun s => s.siteName == name) = true := by
  obtain ⟨new, h1, _⟩ := initFold_append now L db
  rw [h1, List.any_append, h]
  rfl

/-- Every processed name is present after the initialize fold. -/
theorem initFold_mem (now : Int) (L : List String) :
    ∀ db : List SiteDoc, ∀ name ∈ L,
      (L.foldl (initSiteStep now) db).any (fun s => s.siteName == name) = true := by
  induction L with
  | nil => intro db name hn; cases hn
  | cons n L ih =>
    intro db name hn
    rcases List.mem_cons.mp hn with rfl | hn
    · refine initFold_any_mono now L _ name ?_
      by_cases h : db.any (fun s => s.siteName == name)
      · simp [initSiteStep, h]
      · simp [initSiteStep, h, mkDefaultSite]
    · exact ih _ name hn

/-- If every processed name is already present, the initialize fold is
the identity. -/
theorem initFold_noop (now : Int) (L : List String) :
    ∀ db : List SiteDoc,
      (∀ name ∈ L, db.any (fun s => s.siteName == name) = true) →
      L.foldl (initSiteStep now) db = db := by
  induction L with
  | nil => intro db _; rfl
  | cons n L ih =>
    intro db h
    have hn : db.any (fun s => s.siteName == n) = true :=
      h n (List.mem_cons_self _ _)
    simp only [List.foldl_cons, initSiteStep, hn, if_pos]
    exact ih db (fun name hm => h name (List.mem_cons_of_mem _ hm))

/-- **C8**.  Site initialization, for every prior collection: it only
appends, and every appended document is a default one (`currentPOB` 0,
the default `maximumPOB`, the current timestamp) for one of the fixed
known names — so every already-existing document keeps its occupancy
values and timestamp; every known name is present afterwards; and
re-running the operation (at any later timestamp) changes nothing. -/
theorem initializeSites_spec (now : Int) (db : List SiteDoc) :
    (∃ new, initializeSites now db = db ++ new ∧
      ∀ s ∈ new, s.currentPOB = 0 ∧ s.maximumPOB = defaultMaximumPOB ∧
        s.pobUpdatedDate = now ∧ s.siteName ∈ locations) ∧
    (∀ name ∈ locations,
      (initializeSites now db).any (fun s => s.siteName == name) = true) ∧
    (∀ now', initializeSites now' (initializeSites now db)
      = initializeSites now db) := by
  refine ⟨initFold_append now locations db, initFold_mem now locations db, ?_⟩
  intro now'
  exact initFold_noop now' locations _ (initFold_mem now locations db)

/-- A site collection that already holds an NTM document with live
occupancy values. -/
def sampleSites : List SiteDoc :=
  [{ siteName := "NTM", currentPOB := 42, maximumPOB := 150, pobUpdatedDate := 3 }]

/-- Witness for **C8**: on the concrete collection, a second run (with
a different timestamp) changes nothing, the first run keeps the
existing NTM document — occupancy untouched — as a prefix, and appends
exactly the five missing defaults. -/
theorem initializeSites_spec_witness :
    initializeSites 99 (initializeSites 7 sampleSites)
      = initializeSites 7 sampleSites ∧
    initializeSites 7 sampleSites =
      sampleSites ++ [mkDefaultSite "Ogle" 7, mkDefaultSite "NSC" 7,
        mkDefaultSite "NDT" 7, mkDefaultSite "NBD" 7, mkDefaultSite "STC" 7] :=
  ⟨(initializeSites_spec 7 sampleSites).2.2 99, by decide⟩

/-- A pair surviving `removeKey k` is in the original list and its key
is not `k`. -/
theorem mem_removeKey {k : String} {l : List (String × String)}
    {p : String × String} (h : p ∈ removeKey k l) : p ∈ l ∧ p.1 ≠ k := by
  simpa [removeKey] using List.mem_filter.mp h

/-- **C9**.  The unauthenticated register route honors the request
body's `isAdmin` flag: for every created user, the stored admin flag is
exactly the JS truthiness of the submitted `isAdmin` value
(`Boolean(isAdmin) || false`) — so an anonymous caller submitting a
truthy `isAdmin` obtains an administrator account, and an omitted or
falsy `isAdmin` yields a non-admin account. -/
theorem register_isAdmin_from_body (bhash : String → String)
    (db : List UserDoc) (body : RegisterBody) (u : UserDoc)
    (resp : List (String × String))
    (h : register bhash db body = .created u resp) :
    u.isAdmin = body.isAdmin.truthy := by
  obtain ⟨bun, bpw, bfn, bln, bhl, bad⟩ := body
  cases bun <;> cases bpw <;> simp [register, JsValue.trimStr] at h <;>
    split_ifs at h <;> simp at h
  obtain ⟨hu, -⟩ := h
  rw [← hu]

/-- **C6**.  For every registration accepted by the route, assuming the
hash function has no fixed point (bcrypt outputs its own `$2b$...`
format), the stored password is the hash of the (trimmed) submitted
plaintext and differs from it, and the `password` key appears neither
in the route's response body (`delete userToReturn.password`) nor in
the model's `toJSON` serialization used by every other user
response. -/
theorem register_password_hashed_never_serialized
    (bhash : String → String) (db : List UserDoc) (body : RegisterBody)
    (hfix : ∀ s, bhash s ≠ s) (u : UserDoc) (resp : List (String × String))
    (h : register bhash db body = .created u resp) :
    (∃ pw, body.password = .str pw ∧ u.password = bhash (jsTrim pw) ∧
      u.password ≠ jsTrim pw ∧ (jsTrim pw = pw → u.password ≠ pw)) ∧
    (∀ p ∈ resp, p.1 ≠ "password") ∧
    (∀ p ∈ userToJSON u, p.1 ≠ "password") := by
  have hjson : ∀ v : UserDoc, ∀ p ∈ userToJSON v, p.1 ≠ "password" := by
    intro v p hp
    have h1 := (mem_removeKey hp).1
    have h2 := (mem_removeKey h1).1
    have h3 := (mem_removeKey h2).1
    exact (mem_removeKey h3).2
  obtain ⟨bun, bpw, bfn, bln, bhl, bad⟩ := body
  cases bun <;> cases bpw <;> simp [register, JsValue.trimStr] at h <;>
    split_ifs at h <;> simp at h
  case _ raw rawpw _ _ _ _ =>
    obtain ⟨hu, hresp⟩ := h
    refine ⟨⟨rawpw, rfl, ?_, ?_, ?_⟩, ?_, hjson u⟩
    · rw [← hu]
    · rw [← hu]; exact hfix (jsTrim rawpw)
    · intro he; rw [← hu]; simpa [he] using hfix (jsTrim rawpw)
    · intro p hp; rw [← hresp] at hp; exact (mem_removeKey hp).2

/-- A stand-in for `bcrypt.hash` in the witnesses: wraps the input in
dollar signs (as bcrypt wraps its output in a `$2b$12$...` frame), so it
has no fixed point. -/
def bhash0 (s : String) : String := "$" ++ s ++ "$"

/-- `bhash0` never returns its input (their lengths differ by two). -/
theorem bhash0_no_fixpoint : ∀ s, bhash0 s ≠ s := by
  intro s h
  have h2 : ("$" ++ s ++ "$").length = s.length := congrArg String.length h
  have h1 : ("$" : String).length = 1 := rfl
  rw [String.length_append, String.length_append, h1] at h2
  omega

/-- A concrete valid registration body carrying `isAdmin: true`. -/
def body0 : RegisterBody :=
  { userName := .str "alice", password := .str "hunter-23"
    firstName := .str "A", lastName := .str "B"
    homeLocation := .undefined, isAdmin := .bool true }

/-- The document `register bhash0 [] body0` stores. -/
def storedAlice : UserDoc :=
  { userName := "alice", password := "$hunter-23$", firstName := "A"
    lastName := "B", homeLocation := "NSC", isAdmin := true, tokens := "[]" }

/-- The response body `register bhash0 [] body0` sends. -/
def respAlice : List (String × String) :=
  removeKey "password" (userToObject storedAlice)

/-- Witness for **C6**: the concrete registration stores a hash
distinct from the submitted plaintext, and neither the response body
nor the `toJSON` serialization carries a `password` key. -/
theorem register_password_hashed_never_serialized_witness :
    register bhash0 [] body0 = .created storedAlice respAlice ∧
    storedAlice.password ≠ "hunter-23" ∧
    (∀ p ∈ respAlice, p.1 ≠ "password") ∧
    (∀ p ∈ userToJSON storedAlice, p.1 ≠ "password") := by
  have hr : register bhash0 [] body0 = .created storedAlice respAlice := by
    decide
  have H := register_password_hashed_never_serialized bhash0 [] body0
    bhash0_no_fixpoint storedAlice respAlice hr
  obtain ⟨pw, hpw, -, -, hor⟩ := H.1
  have hpw' : pw = "hunter-23" := by
    have := hpw
    simp only [body0, JsValue.str.injEq] at this
    exact this.symm
  subst hpw'
  exact ⟨hr, hor (by decide), H.2.1, H.2.2⟩

/-- Witness for **C9**: the concrete anonymous registration with
`isAdmin: true` creates an administrator account. -/
theorem register_isAdmin_from_body_witness :
    register bhash0 [] body0 = .created storedAlice respAlice ∧
    storedAlice.isAdmin = true := by
  have hr : register bhash0 [] body0 = .created storedAlice respAlice := by
    decide
  refine ⟨hr, ?_⟩
  rw [register_isAdmin_from_body bhash0 [] body0 storedAlice respAlice hr]
  decide

/-- **C10**.  A full trip update whose body omits `numberOfPassengers`
or supplies it as `null` stores `null` for the count of the updated
document, whatever the prior stored count was: the route always puts
the whole `updateData` — with `numberOfPassengers: null` in that case —
under `$set`. -/
theorem putTrip_erases_count (db : List TripDoc) (id : Nat)
    (body : TripBody) (t : TripDoc) (db2 : List TripDoc)
    (hnum : body.numberOfPassengers = .undefined ∨ body.numberOfPassengers = .null)
    (h : putTrip db id body = (.ok 200 t, db2)) :
    t.numberOfPassengers = .null ∧ db2 = replaceTrip db id t := by
  unfold putTrip at h
  split at h
  · exact absurd h (by simp)
  split at h
  · exact absurd h (by simp)
  split at h
  · exact absurd h (by simp)
  split at h
  · exact absurd h (by simp)
  dsimp only at h
  split at h
  · simp only [Prod.mk.injEq, TripResult.ok.injEq] at h
    obtain ⟨⟨-, ht⟩, hdb⟩ := h
    constructor
    · rw [← ht]
      rcases hnum with hnum | hnum <;> simp [hnum, bodyNumField]
    · rw [← hdb, ← ht]
  · exact absurd h (by simp)

/-- The body of the **C10** witness update: all required fields
present, `numberOfPassengers` omitted. -/
def putBody0 : TripBody :=
  { passengerId := .str "p1", fromOrigin := .str "Ogle"
    toDestination := .str "NTM", tripDate := .str "2024-01-05"
    confirmed := .bool true, numberOfPassengers := .undefined }

/-- The document the **C10** witness update leaves stored. -/
def putResult0 : TripDoc :=
  { id := 3, passengerId := "p1", fromOrigin := "Ogle"
    toDestination := "NTM", tripDate := "2024-01-05", confirmed := true
    numberOfPassengers := .null }

/-- Witness for **C10**: updating the trip whose stored count is 3 with
a body omitting `numberOfPassengers` succeeds and stores `null`. -/
theorem putTrip_erases_count_witness :
    putTrip [tripCountThree] 3 putBody0
      = (.ok 200 putResult0, [putResult0]) ∧
    putResult0.numberOfPassengers = .null := by
  have hr : putTrip [tripCountThree] 3 putBody0
      = (.ok 200 putResult0, [putResult0]) := by decide
  have H := putTrip_erases_count [tripCountThree] 3 putBody0 putResult0
    [putResult0] (Or.inl rfl) hr
  exact ⟨hr, H.1⟩

/-- **C7**.  Trip-date normalization: the canonical string
`"2024-01-05"` is returned unchanged; every instant (native date /
epoch-millisecond value) inside the UTC day 2024-01-05 normalizes to
`"2024-01-05"`; every parseable timestamp string that is not already in
`YYYY-MM-DD` form and denotes an instant of that UTC day normalizes to
the same `"2024-01-05"`; every created trip stores exactly the
`formatTripDate` image of its submitted date; an unparsable date makes
trip creation fail with a 400 validation error (never a 500), and the
date-scoped query route feeds its URL parameter through the same
`formatTripDate`, with the same 400 on error and an exact-string match
on success. -/
theorem tripDate_normalization :
    formatTripDate (.str "2024-01-05") = .ok "2024-01-05" ∧
    (∀ ms : Int, 1704412800000 ≤ ms → ms < 1704499200000 →
      formatTripDate (.numMs ms) = .ok "2024-01-05") ∧
    (∀ s ms, matchesYMD s = false → jsDateParse s = some ms →
      1704412800000 ≤ ms → ms < 1704499200000 →
      formatTripDate (.str s) = .ok "2024-01-05") ∧
    (∀ db n body t db2, createTrip db n body = (.ok 201 t, db2) →
      ∃ di, body.tripDate.asDateInput = some di ∧
        formatTripDate di = .ok t.tripDate) ∧
    (∀ db n body di e, tripBodyMissing body = false →
      body.tripDate.asDateInput = some di → formatTripDate di = .error e →
      createTrip db n body = (.err 400 "Validation failed", db)) ∧
    (∀ db s e, formatTripDate (.str s) = .error e →
      getTripsByDate db s = .err 400 "Validation failed") ∧
    (∀ db s q, formatTripDate (.str s) = .ok q →
      getTripsByDate db s = .ok (db.filter (fun t => t.tripDate == q))) := by
  refine ⟨by decide, ?_, ?_, ?_, ?_, ?_, ?_⟩
  · intro ms h1 h2
    have hb : ms.natAbs ≤ 8640000000000000 := by omega
    have hd : ms.ediv 86400000 = 19727 := by
      show ms / 86400000 = 19727
      omega
    simp only [formatTripDate, hb, if_true, toISODateString, hd]
    decide
  · intro s ms hm hp h1 h2
    have hd : ms.ediv 86400000 = 19727 := by
      show ms / 86400000 = 19727
      omega
    simp only [formatTripDate, hm, Bool.false_eq_true, if_false, hp,
      toISODateString, hd]
    decide
  · intro db n body t db2 h
    unfold createTrip at h
    split at h
    · exact absurd h (by simp)
    split at h
    · exact absurd h (by simp)
    rename_i di hdi
    split at h
    · exact absurd h (by simp)
    rename_i formatted hfmt
    dsimp only at h
    split at h
    · simp only [Prod.mk.injEq, TripResult.ok.injEq] at h
      obtain ⟨⟨-, ht⟩, -⟩ := h
      exact ⟨di, hdi, by rw [← ht]; exact hfmt⟩
    · exact absurd h (by simp)
  · intro db n body di e hmiss hdi hfmt
    simp [createTrip, hmiss, hdi, hfmt]
  · intro db s e hfmt
    simp [getTripsByDate, hfmt]
  · intro db s q hfmt
    simp [getTripsByDate, hfmt]

/-- Witness for **C7**: the three concrete accepted representations of
2024-01-05 — the canonical string, the epoch-millisecond instant
1704443400000 (08:30 UTC that day), and the full timestamp string —
normalize to the same stored `"2024-01-05"`, and a slash-formatted,
unparsable date makes the date query fail with 400. -/
theorem tripDate_normalization_witness :
    formatTripDate (.str "2024-01-05") = .ok "2024-01-05" ∧
    formatTripDate (.numMs 1704443400000) = .ok "2024-01-05" ∧
    formatTripDate (.str "2024-01-05T08:30:00.000Z") = .ok "2024-01-05" ∧
    getTripsByDate [] "2024-13-45T99:99:99Z" = .err 400 "Validation failed" := by
  have H := tripDate_normalization
  exact ⟨H.1,
    H.2.1 1704443400000 (by decide) (by decide),
    H.2.2.1 "2024-01-05T08:30:00.000Z" 1704443400000 (by decide) (by decide)
      (by decide) (by decide),
    H.2.2.2.2.2.1 [] "2024-13-45T99:99:99Z" "Invalid date format" (by decide)⟩

end Wells
